import Mathlib

/-!
Formal model of the jdy_sdk client library (src/jdy_sdk.py): the token
lifecycle and request-retry core.  Python dictionaries parsed from JSON are
modelled as association lists over a JSON value type, HTTP traffic is
modelled by an oracle (a list of pending responses for the credential
endpoint and for the resource endpoints), and Python exceptions are
modelled as an `Except` error type.  Wall-clock time is passed explicitly
as an integer `now` (the two `time.time()` reads inside one operation are
modelled as the same instant).
-/

/-- JSON values, as produced by `res.json()`.  Floating-point numbers do
not occur in any envelope this client interprets and are omitted. -/
inductive JVal where
  | null
  | bool (b : Bool)
  | int (n : Int)
  | str (s : String)
  | arr (elems : List JVal)
  | obj (fields : List (String × JVal))

/-- A Python dict with string keys, as an association list.  Insertion
order is kept, matching CPython dict semantics. -/
abbrev Dict := List (String × JVal)

/-- `d.get(k)` as an `Option`: the value at the first matching key. -/
def dictGet? : Dict → String → Option JVal
  | [], _ => none
  | (k', v) :: rest, k => if k' = k then some v else dictGet? rest k

/-- `d[k] = v`: replace the value at the first matching key in place, or
append a fresh entry at the end (CPython dict assignment). -/
def dictSet : Dict → String → JVal → Dict
  | [], k, v => [(k, v)]
  | (k', v') :: rest, k, v =>
      if k' = k then (k, v) :: rest else (k', v') :: dictSet rest k v

/-- `d.get(k, default)`. -/
def dictGetD (d : Dict) (k : String) (default : JVal) : JVal :=
  (dictGet? d k).getD default

/-- `k in d` for a dict. -/
def dictHasKey (d : Dict) (k : String) : Bool :=
  (dictGet? d k).isSome

/-- Python truthiness (`if value:`) of a JSON value. -/
def pyTruthy : JVal → Bool
  | .null => false
  | .bool b => b
  | .int n => if n = 0 then false else true
  | .str s => if s = "" then false else true
  | .arr xs => !xs.isEmpty
  | .obj kvs => !kvs.isEmpty

/-- Python `value != 0`: `False == 0` and `True == 1`; every non-numeric
value is unequal to `0`. -/
def pyNe0 : JVal → Bool
  | .int n => if n = 0 then false else true
  | .bool b => b
  | _ => true

/-- Python exceptions that the modelled code can raise.
`jdyExc` is `JDYClientException(errcode, errmsg, ...)` (the diagnostic
`client`/`request`/`response` fields are not modelled); the others are the
builtin `AttributeError`, `KeyError`, `ValueError` and `TypeError`.
`fuelExhausted` is an artefact of the fuel-indexed recursion and is never
produced by the wrappers `_request`/`_handle_result` (the retry flag is
false before the fuel runs out). -/
inductive PyExc where
  | jdyExc (errcode : Option JVal) (errmsg : Option JVal)
  | attrError (attr : String)
  | keyError (key : String)
  | valueError
  | typeError
  | fuelExhausted

/-- Characters of a string with surrounding whitespace removed
(`str.strip()` as `int()` applies it). -/
def trimChars (l : List Char) : List Char :=
  ((l.dropWhile Char.isWhitespace).reverse.dropWhile Char.isWhitespace).reverse

/-- Value of a nonempty all-digit character list, else `none`. -/
def digitsValAux : List Char → Nat → Option Nat
  | [], acc => some acc
  | c :: rest, acc =>
      if c.isDigit then digitsValAux rest (acc * 10 + (c.toNat - 48)) else none

/-- Decimal value of a nonempty digit string. -/
def digitsVal? : List Char → Option Nat
  | [] => none
  | c :: rest => digitsValAux (c :: rest) 0

/-- `int(s)` on a string: optional sign, decimal digits, surrounding
whitespace allowed (exotic forms such as underscores or non-ASCII digits
are not modelled). -/
def pyIntOfString (s : String) : Option Int :=
  match trimChars s.data with
  | '-' :: rest => (digitsVal? rest).map (fun n => -(n : Int))
  | '+' :: rest => (digitsVal? rest).map (fun n => (n : Int))
  | l => (digitsVal? l).map (fun n => (n : Int))

/-- Python `int(value)` on a JSON value. -/
def pyInt : JVal → Except PyExc Int
  | .int n => .ok n
  | .bool b => .ok (if b then 1 else 0)
  | .str s =>
      match pyIntOfString s with
      | some n => .ok n
      | none => .error .valueError
  | _ => .error .typeError

/-- Python `n + value` with an integer left operand. -/
def pyAddInt (n : Int) : JVal → Except PyExc Int
  | .int m => .ok (n + m)
  | .bool b => .ok (n + (if b then 1 else 0))
  | _ => .error .typeError

/-- Contiguous-substring test on character lists. -/
def charsInfixOf : List Char → List Char → Bool
  | needle, [] => needle.isEmpty
  | needle, c :: rest => needle.isPrefixOf (c :: rest) || charsInfixOf needle rest

/-- Python `needle in value` for a string needle. -/
def pyContains (needle : String) : JVal → Except PyExc Bool
  | .obj kvs => .ok (dictHasKey kvs needle)
  | .arr xs => .ok (xs.any fun v => match v with | .str s => s = needle | _ => false)
  | .str s => .ok (charsInfixOf needle.data s.data)
  | _ => .error .typeError

/-- Python `value[k]` for a string subscript: key lookup on a dict
(`KeyError` when missing), `TypeError` on anything else. -/
def pyGetItemStr : JVal → String → Except PyExc JVal
  | .obj kvs, k =>
      match dictGet? kvs k with
      | some v => .ok v
      | none => .error (.keyError k)
  | _, _ => .error .typeError

/-- `MemoryStorage`: the default in-process store.  Its `_data` dict is the
state; `ttl` is accepted and ignored (the source drops it). -/
def MemoryStorage.get (d : Dict) (key : String) (default : JVal) : JVal :=
  dictGetD d key default

/-- `MemoryStorage.set`: a `None` value returns without storing; any other
value overwrites the entry.  The `ttl` argument is ignored. -/
def MemoryStorage.set (d : Dict) (key : String) (value : JVal) (ttl : JVal) : Dict :=
  match value with
  | .null => d
  | v => dictSet d key v

/-- `MemoryStorage.delete`: `self._data.pop(key, None)`. -/
def MemoryStorage.delete (d : Dict) (key : String) : Dict :=
  d.filter (fun p => p.1 ≠ key)

/-- `SessionStorage.__getitem__` as inherited by `MemoryStorage`: the body
calls `self.get(key)` but has no `return` statement, so Python returns
`None` regardless of the stored value. -/
def MemoryStorage.getitem (d : Dict) (key : String) : JVal :=
  let _ := MemoryStorage.get d key JVal.null
  JVal.null

/-- `RedisStorage.key_name`: the stored key is the configured namespace
string, a colon, then the logical key (str.format in the source). -/
def RedisStorage.key_name (prefixStr key : String) : String :=
  prefixStr ++ ":" ++ key

/-- `RedisStorage`: the external store is a map from (prefixed) key to the
stored value.  The `json.dumps`/`json.loads` round trip applied on the way
in and out is modelled as the identity, so values are kept as `JVal`. -/
def RedisStorage.get (redis : Dict) (prefixStr key : String) (default : JVal) : JVal :=
  match dictGet? redis (RedisStorage.key_name prefixStr key) with
  | none => default
  | some v => v

/-- `RedisStorage.set`: a `None` value returns without storing; otherwise
the serialized value is written with `ex=ttl` (expiry is the backing
business of the backing store and is not part of this state model). -/
def RedisStorage.set (redis : Dict) (prefixStr key : String) (value : JVal) (ttl : JVal) : Dict :=
  match value with
  | .null => redis
  | v => dictSet redis (RedisStorage.key_name prefixStr key) v

/-- `RedisStorage.delete`. -/
def RedisStorage.delete (redis : Dict) (prefixStr key : String) : Dict :=
  redis.filter (fun p => p.1 ≠ RedisStorage.key_name prefixStr key)

/-- `SessionStorage.__getitem__` as inherited by `RedisStorage`: calls
`self.get(key)` and returns `None` (no `return` statement). -/
def RedisStorage.getitem (redis : Dict) (prefixStr key : String) : JVal :=
  let _ := RedisStorage.get redis prefixStr key JVal.null
  JVal.null

/-- Immutable client configuration from `JDYClient.__init__` (the
`timeout` field is accepted by the constructor but never used by the
modelled core and is omitted). -/
structure JDYCfg where
  client_id : String
  client_secret : String
  username : String
  password : String
  account_id : String
  db_id : String
  auto_retry : Bool

/-- `JDYClient.access_token_key`: the f-string joining client_id, username
and the literal suffix access_token with underscores. -/
def access_token_key (cfg : JDYCfg) : String :=
  cfg.client_id ++ "_" ++ cfg.username ++ "_access_token"

/-- Mutable per-client state: the session store contents (modelled for the
default `MemoryStorage`) and the in-memory `expires_at` timestamp. -/
structure ClientState where
  session : Dict
  expires_at : Option Int

/-- `JDYClient.__init__` state initialisation: `expires_at = None`, and a
truthy pre-seeded `access_token` is written to the store (with no ttl). -/
def jdyInit (cfg : JDYCfg) (session : Dict) (accessToken : JVal) : ClientState :=
  { session :=
      if pyTruthy accessToken then
        MemoryStorage.set session (access_token_key cfg) accessToken JVal.null
      else session
    expires_at := none }

/-- Outcome of one HTTP round trip: either `raise_for_status` fails
(connection error or non-2xx status), or a parsed JSON object body.
Responses are modelled as JSON objects, the envelope shape of this API. -/
inductive HttpResult where
  | transportError
  | ok (body : Dict)

/-- One resource HTTP call as issued by `_request`: method, resolved URL,
query parameters and optional JSON body. -/
structure ReqCall where
  method : String
  url : String
  params : Dict
  body : Option JVal

/-- The world a client operation runs in: client state, the pending
responses of the credential endpoint (`auths`) and of the resource
endpoints (`ress`), consumed in order, plus observation logs: how many
times `_fetch_access_token` ran, every resource HTTP call issued, and
every `session.set` call (key, value, ttl) made by the token manager. -/
structure World where
  st : ClientState
  auths : List HttpResult
  ress : List HttpResult
  fetches : Nat
  calls : List ReqCall
  setCalls : List (String × JVal × JVal)

/-- `JDYClient.API_BASE_URL`. -/
def API_BASE_URL : String := "https://api.kingdee.com"

/-- `JDYClient.GET_ACCESS_TOKEN`. -/
def GET_ACCESS_TOKEN : String := "/auth/user/access_token"

/-- `JDYClient.VOUCHERS`. -/
def VOUCHERS : String := "/jdyaccouting/voucherlist"

/-- `JDYClient.ACCOUNTS`. -/
def ACCOUNTS : String := "/jdyaccouting/account"

/-- The reserved invalid-credential sentinel code. -/
def INVALID_CREDENTIAL : Int := 4010

/-- `JDYClient._fetch_access_token`: one blocking credential exchange.
Consumes the next pending auth response.  An exhausted `auths` oracle is
treated like a transport failure.  Steps, in source order: raise on
transport failure; raise `JDYClientException(errcode, description)` on a
non-zero `errcode`; read `expires_in` (default 7200); read
`data.access_token`; `session.set(key, token, expires_in)`; set
`expires_at = int(time.time()) + expires_in`; return the parsed result. -/
def _fetch_access_token (cfg : JDYCfg) (now : Int) (w : World) : World × Except PyExc Dict :=
  match w.auths with
  | [] => ({ w with fetches := w.fetches + 1 }, .error (.jdyExc none none))
  | .transportError :: rest =>
      ({ w with auths := rest, fetches := w.fetches + 1 }, .error (.jdyExc none none))
  | .ok result :: rest =>
    let w1 : World := { w with auths := rest, fetches := w.fetches + 1 }
    let errcodeBad : Bool :=
      match dictGet? result "errcode" with
      | some v => pyNe0 v
      | none => false
    if errcodeBad then
      match dictGet? result "errcode", dictGet? result "description" with
      | some v, some d => (w1, .error (.jdyExc (some v) (some d)))
      | some _, none => (w1, .error (.keyError "description"))
      | none, _ => (w1, .error (.jdyExc none none))
    else
      let expiresInE : Except PyExc JVal :=
        match dictGet? result "data" with
        | none => .ok (JVal.int 7200)
        | some dv =>
          match pyContains "expires_in" dv with
          | .error e => .error e
          | .ok true => pyGetItemStr dv "expires_in"
          | .ok false => .ok (JVal.int 7200)
      match expiresInE with
      | .error e => (w1, .error e)
      | .ok expires_in =>
        let tokenE : Except PyExc JVal :=
          match dictGet? result "data" with
          | none => .error (.keyError "data")
          | some dv => pyGetItemStr dv "access_token"
        match tokenE with
        | .error e => (w1, .error e)
        | .ok token =>
          let w2 : World :=
            { w1 with
                st := { w1.st with
                          session := MemoryStorage.set w1.st.session (access_token_key cfg) token expires_in }
                setCalls := w1.setCalls ++ [(access_token_key cfg, token, expires_in)] }
          match pyAddInt now expires_in with
          | .error e => (w2, .error e)
          | .ok t => ({ w2 with st := { w2.st with expires_at := some t } }, .ok result)

/-- `JDYClient.fetch_access_token`: builds the credential-exchange query
(`username`/`password`/`client_id`/`client_secret`) and delegates to
`_fetch_access_token`; in this model the auth exchange is driven by the
`auths` oracle, so the wrapper is the delegation itself. -/
def fetch_access_token (cfg : JDYCfg) (now : Int) (w : World) : World × Except PyExc Dict :=
  _fetch_access_token cfg now w

/-- `JDYClient.access_token` (property): return a cached truthy token
when `expires_at` is falsy or when more than 60 seconds of lifetime
remain; otherwise fetch, then return whatever the store now holds.  The
guard `if not self.expires_at:` in the source is a Python truthiness
test, so it is taken both when `expires_at` is unset (`None`) and when
it is the integer `0` — in either case the token is treated as
externally supplied and returned as-is, with no expiry check and no
fetch. -/
def access_token (cfg : JDYCfg) (now : Int) (w : World) : World × Except PyExc JVal :=
  let tok := MemoryStorage.get w.st.session (access_token_key cfg) JVal.null
  let fetchPath : World × Except PyExc JVal :=
    match fetch_access_token cfg now w with
    | (w', .error e) => (w', .error e)
    | (w', .ok _) =>
        (w', .ok (MemoryStorage.get w'.st.session (access_token_key cfg) JVal.null))
  if pyTruthy tok then
    match w.st.expires_at with
    | none => (w, .ok tok)
    | some e =>
        if e = 0 then (w, .ok tok)
        else if e - now > 60 then (w, .ok tok) else fetchPath
  else fetchPath

mutual
/-- `str(value)` on a parsed JSON value, Python-repr style, used only to
build the error message of the malformed-envelope raise. -/
def jvalStr : JVal → String
  | .null => "None"
  | .bool true => "True"
  | .bool false => "False"
  | .int n => toString n
  | .str s => "\x27" ++ s ++ "\x27"
  | .arr xs => "[" ++ jvalListStr xs ++ "]"
  | .obj kvs => "\x7b" ++ jvalFieldsStr kvs ++ "\x7d"
/-- Comma-separated rendering of the elements of a JSON array. -/
def jvalListStr : List JVal → String
  | [] => ""
  | [x] => jvalStr x
  | x :: rest => jvalStr x ++ ", " ++ jvalListStr rest
/-- Comma-separated rendering of the fields of a JSON object. -/
def jvalFieldsStr : List (String × JVal) → String
  | [] => ""
  | [(k, v)] => "\x27" ++ k ++ "\x27: " ++ jvalStr v
  | (k, v) :: rest => "\x27" ++ k ++ "\x27: " ++ jvalStr v ++ ", " ++ jvalFieldsStr rest
end

/-- `str.startswith(p)`. -/
def strStartsWith (s p : String) : Bool :=
  p.data.isPrefixOf s.data

/-- URL resolution at the top of `_request`: absolute URLs pass through,
bare endpoints are prefixed with `API_BASE_URL` (no caller overrides
`api_base_url`, so the default is used). -/
def resolveUrl (url_or_endpoint : String) : String :=
  if strStartsWith url_or_endpoint "http://" || strStartsWith url_or_endpoint "https://" then
    url_or_endpoint
  else
    API_BASE_URL ++ url_or_endpoint

/-- The front half of `JDYClient._request`, up to the point where
`_handle_result` is invoked: resolve the URL, inject the current token
into the query parameters unless already present, issue the HTTP call
(consuming the next pending resource response; an exhausted oracle is a
transport failure), raise on transport failure, and raise on a parsed
body with no `code` field.  Returns the resolved URL, the final query
parameters and the parsed body. -/
def requestStep (cfg : JDYCfg) (now : Int) (method url_or_endpoint : String)
    (params : Dict) (body : Option JVal) (w : World) :
    World × Except PyExc (String × Dict × Dict) :=
  let url := resolveUrl url_or_endpoint
  let attach : World × Except PyExc Dict :=
    match dictGet? params "access_token" with
    | some _ => (w, .ok params)
    | none =>
      match access_token cfg now w with
      | (w', .error e) => (w', .error e)
      | (w', .ok tok) => (w', .ok (dictSet params "access_token" tok))
  match attach with
  | (w1, .error e) => (w1, .error e)
  | (w1, .ok params1) =>
    let w2 : World :=
      { w1 with
          calls := w1.calls ++ [⟨method, url, params1, body⟩]
          ress := w1.ress.tail }
    match w1.ress with
    | [] => (w2, .error (.jdyExc none none))
    | .transportError :: _ => (w2, .error (.jdyExc none none))
    | .ok res :: _ =>
      if dictHasKey res "code" then (w2, .ok (url, params1, res))
      else (w2, .error (.jdyExc none (some (JVal.str (jvalStr (JVal.obj res))))))

/-- `return result if not result_processor else result_processor(result)`:
the success result of `_handle_result`, through the optional
caller-supplied post-processing transform. -/
def applyProcessor (result_processor : Option (Dict → JVal)) (result : Dict) : JVal :=
  match result_processor with
  | none => JVal.obj result
  | some f => f result

/-- `JDYClient._handle_result`, fuel-indexed (the fuel only bounds the
depth of the `_handle_result → _request → _handle_result` recursion; the
`auto_retry` flag is what actually stops a second retry, so the fuel is
never exhausted when starting from the wrappers below).  Steps, in source
order: coerce the code entry of `result` with `int(...)` when present; on a
non-zero code, either (auto-retry branch, only for code 4010 with both
retry flags set) fetch a fresh token, substitute it into the query
parameters and re-issue the request with `auto_retry=False`, or
(otherwise) build `JDYClientException(errcode, errmsg, ...,
request=res.request, ...)` — whose argument `res.request` is an attribute
access on the parsed dict and therefore raises `AttributeError`; on
success return the result, through `result_processor` when supplied. -/
def _handle_resultFuel (fuel : Nat) (cfg : JDYCfg) (now : Int) (res : Dict)
    (method url : String) (result_processor : Option (Dict → JVal))
    (auto_retry : Bool) (params : Dict) (body : Option JVal) (w : World) :
    World × Except PyExc JVal :=
  match dictGet? res "code" with
    | none =>
        (w, .ok (applyProcessor result_processor res))
    | some v =>
      match pyInt v with
      | .error e => (w, .error e)
      | .ok k =>
        let result := dictSet res "code" (JVal.int k)
        if k = 0 then
          (w, .ok (applyProcessor result_processor result))
        else
          let errcode := k
          let _errmsg := dictGetD result "msg" (JVal.int k)
          if cfg.auto_retry && auto_retry && errcode = INVALID_CREDENTIAL then
            match fetch_access_token cfg now w with
            | (w1, .error e) => (w1, .error e)
            | (w1, .ok _) =>
              let tok := MemoryStorage.get w1.st.session (access_token_key cfg) JVal.null
              let params1 := dictSet params "access_token" tok
              match fuel with
              | 0 => (w1, .error .fuelExhausted)
              | m + 1 =>
                match requestStep cfg now method url params1 body w1 with
                | (w2, .error e) => (w2, .error e)
                | (w2, .ok (url2, params2, res2)) =>
                    _handle_resultFuel m cfg now res2 method url2 result_processor
                      false params2 body w2
          else
            (w, .error (.attrError "request"))

/-- `JDYClient._handle_result` as called once from the outside (fuel 1
allows the single bounded retry). -/
def _handle_result (cfg : JDYCfg) (now : Int) (res : Dict) (method url : String)
    (result_processor : Option (Dict → JVal)) (auto_retry : Bool)
    (params : Dict) (body : Option JVal) (w : World) : World × Except PyExc JVal :=
  _handle_resultFuel 1 cfg now res method url result_processor auto_retry params body w

/-- `JDYClient._request`: the front half (`requestStep`) followed by
`_handle_result`. -/
def _request (cfg : JDYCfg) (now : Int) (method url_or_endpoint : String)
    (params : Dict) (body : Option JVal) (result_processor : Option (Dict → JVal))
    (auto_retry : Bool) (w : World) : World × Except PyExc JVal :=
  match requestStep cfg now method url_or_endpoint params body w with
  | (w1, .error e) => (w1, .error e)
  | (w1, .ok (url1, params1, res1)) =>
      _handle_resultFuel 1 cfg now res1 method url1 result_processor auto_retry params1 body w1

/-- `JDYClient.accounting_get_accounts`: `GET /jdyaccouting/account` with
tenant scoping in the query parameters. -/
def accounting_get_accounts (cfg : JDYCfg) (now : Int) (w : World) :
    World × Except PyExc JVal :=
  _request cfg now "get" ACCOUNTS
    [("sid", JVal.str cfg.account_id), ("dbId", JVal.str cfg.db_id)]
    none none true w

/-- `JDYClient.accounting_get_voucher_list`: `POST
/jdyaccouting/voucherlist` with tenant scoping and a period-range JSON
body. -/
def accounting_get_voucher_list (cfg : JDYCfg) (now : Int)
    (from_period to_period : JVal) (w : World) : World × Except PyExc JVal :=
  _request cfg now "post" VOUCHERS
    [("sid", JVal.str cfg.account_id), ("dbId", JVal.str cfg.db_id)]
    (some (JVal.obj [("fromPeriod", from_period), ("toPeriod", to_period)]))
    none true w

/-! Helper lemmas about the model. -/

theorem dictGet?_dictSet_self (d : Dict) (k : String) (v : JVal) :
    dictGet? (dictSet d k v) k = some v := by
  induction d with
  | nil => simp [dictSet, dictGet?]
  | cons p rest ih =>
    by_cases h : p.1 = k
    · simp [dictSet, dictGet?, h]
    · simp [dictSet, dictGet?, h, ih]

theorem dictSet_eq_of_get (d : Dict) (k : String) (v : JVal)
    (h : dictGet? d k = some v) : dictSet d k v = d := by
  induction d with
  | nil => simp [dictGet?] at h
  | cons p rest ih =>
    by_cases hk : p.1 = k
    · cases p with
      | mk k' v' =>
        simp only [dictGet?] at h
        simp only at hk
        rw [if_pos hk] at h
        cases h
        simp [dictSet, hk]
    · cases p with
      | mk k' v' =>
        simp only at hk
        simp only [dictGet?] at h
        rw [if_neg hk] at h
        simp [dictSet, hk, ih h]

theorem pyTruthy_ne_null {v : JVal} (h : pyTruthy v = true) : v ≠ JVal.null := by
  intro hv
  rw [hv] at h
  simp [pyTruthy] at h

theorem MemoryStorage.get_set_self (d : Dict) (k : String) (v ttl default : JVal)
    (h : v ≠ JVal.null) :
    MemoryStorage.get (MemoryStorage.set d k v ttl) k default = v := by
  cases v with
  | null => exact absurd rfl h
  | bool b => simp [MemoryStorage.get, MemoryStorage.set, dictGetD, dictGet?_dictSet_self]
  | int n => simp [MemoryStorage.get, MemoryStorage.set, dictGetD, dictGet?_dictSet_self]
  | str s => simp [MemoryStorage.get, MemoryStorage.set, dictGetD, dictGet?_dictSet_self]
  | arr xs => simp [MemoryStorage.get, MemoryStorage.set, dictGetD, dictGet?_dictSet_self]
  | obj kvs => simp [MemoryStorage.get, MemoryStorage.set, dictGetD, dictGet?_dictSet_self]

theorem isPrefixOf_append_left {p l : List Char} (h : p.isPrefixOf l = true)
    (m : List Char) : p.isPrefixOf (l ++ m) = true := by
  rw [List.isPrefixOf_iff_prefix] at h ⊢
  exact h.trans (l.prefix_append m)

theorem resolveUrl_idem (u : String) : resolveUrl (resolveUrl u) = resolveUrl u := by
  unfold resolveUrl
  by_cases h : (strStartsWith u "http://" || strStartsWith u "https://") = true
  · rw [if_pos h, if_pos h]
  · rw [if_neg h]
    have habs : strStartsWith (API_BASE_URL ++ u) "https://" = true := by
      unfold strStartsWith
      rw [String.data_append]
      exact isPrefixOf_append_left (by decide) u.data
    rw [if_pos (by rw [habs, Bool.or_true])]

theorem fetch_ok (cfg : JDYCfg) (now : Int) (w : World) (a : Dict)
    (arest : List HttpResult) (d : Dict) (tokS : String) (eiv : JVal) (t : Int)
    (hAuths : w.auths = .ok a :: arest)
    (hNoErr : (match dictGet? a "errcode" with | some v => pyNe0 v | none => false) = false)
    (hData : dictGet? a "data" = some (JVal.obj d))
    (hTokD : dictGet? d "access_token" = some (JVal.str tokS))
    (hEi : (match dictGet? d "expires_in" with | some x => x | none => JVal.int 7200) = eiv)
    (hAdd : pyAddInt now eiv = .ok t) :
    _fetch_access_token cfg now w =
      ({ w with
          st := { session := dictSet w.st.session (access_token_key cfg) (JVal.str tokS),
                  expires_at := some t }
          auths := arest
          fetches := w.fetches + 1
          setCalls := w.setCalls ++ [(access_token_key cfg, JVal.str tokS, eiv)] },
        .ok a) := by
  cases hcase : dictGet? d "expires_in" with
  | none =>
    rw [hcase] at hEi
    subst hEi
    simp [_fetch_access_token, hAuths, hNoErr, hData, hTokD, hAdd, hcase,
      pyContains, pyGetItemStr, dictHasKey, MemoryStorage.set]
  | some x =>
    rw [hcase] at hEi
    subst hEi
    simp [_fetch_access_token, hAuths, hNoErr, hData, hTokD, hAdd, hcase,
      pyContains, pyGetItemStr, dictHasKey, MemoryStorage.set]

theorem requestStep_ok (cfg : JDYCfg) (now : Int) (method u : String)
    (params : Dict) (body : Option JVal) (w : World) (t0 : JVal) (res : Dict)
    (rrest : List HttpResult)
    (hp : dictGet? params "access_token" = some t0)
    (hress : w.ress = .ok res :: rrest)
    (hcode : dictHasKey res "code" = true) :
    requestStep cfg now method u params body w =
      ({ w with calls := w.calls ++ [⟨method, resolveUrl u, params, body⟩],
                ress := rrest },
       .ok (resolveUrl u, params, res)) := by
  unfold requestStep
  rw [hp]
  simp [hress, hcode]

theorem handle_noretry_frame (fuel : Nat) (cfg : JDYCfg) (now : Int) (res : Dict)
    (method url : String) (rp : Option (Dict → JVal)) (params : Dict)
    (body : Option JVal) (w : World) :
    (_handle_resultFuel fuel cfg now res method url rp false params body w).1 = w := by
  unfold _handle_resultFuel
  cases h : dictGet? res "code" with
  | none => rfl
  | some v =>
    cases hv : pyInt v with
    | error e => simp [h, hv]
    | ok k =>
      by_cases hk : k = 0
      · simp [h, hv, hk]
      · simp [h, hv, hk]

theorem no_underscore_split {l1 l2 r1 r2 : List Char}
    (h1 : '_' ∉ l1) (h2 : '_' ∉ l2)
    (heq : l1 ++ '_' :: r1 = l2 ++ '_' :: r2) : l1 = l2 ∧ r1 = r2 := by
  induction l1 generalizing l2 with
  | nil =>
    cases l2 with
    | nil => simpa using heq
    | cons c cs =>
      simp only [List.nil_append, List.cons_append, List.cons.injEq] at heq
      exact absurd (heq.1 ▸ List.mem_cons_self c cs) h2
  | cons c cs ih =>
    cases l2 with
    | nil =>
      simp only [List.cons_append, List.nil_append, List.cons.injEq] at heq
      exact absurd (heq.1 ▸ List.mem_cons_self c cs) h1
    | cons d ds =>
      simp only [List.cons_append, List.cons.injEq] at heq
      have h1' : '_' ∉ cs := fun hm => h1 (List.mem_cons_of_mem c hm)
      have h2' : '_' ∉ ds := fun hm => h2 (List.mem_cons_of_mem d hm)
      have := ih h1' h2' heq.2
      exact ⟨by rw [heq.1, this.1], this.2⟩

theorem access_token_key_data (cfg : JDYCfg) :
    (access_token_key cfg).data =
      cfg.client_id.data ++ '_' :: (cfg.username.data ++ "_access_token".data) := by
  show (cfg.client_id ++ "_" ++ cfg.username ++ "_access_token").data = _
  rw [String.data_append, String.data_append, String.data_append]
  simp [List.append_assoc]

/-- A concrete client configuration for the concrete evaluations below. -/
def cfgEx : JDYCfg := ⟨"cid", "sec", "user", "pw", "A", "B", true⟩

/-- A world with an empty store, no pending responses and empty logs. -/
def emptyWorld : World :=
  { st := { session := [], expires_at := none }, auths := [], ress := [],
    fetches := 0, calls := [], setCalls := [] }

/-- A successful credential-exchange response issuing token `T2`. -/
def authOkEx : HttpResult :=
  .ok [("errcode", JVal.int 0),
       ("data", JVal.obj [("access_token", JVal.str "T2"), ("expires_in", JVal.int 7200)])]

/-- C6: storing a null value through the Credential Store — both the
in-memory implementation and the external/Redis-backed one — leaves the
store state unchanged, so a subsequent `get` returns exactly what it
returned before and no entry is created or overwritten. -/
theorem storage_set_none_is_noop (d redis : Dict) (prefixStr key : String)
    (ttl default : JVal) :
    MemoryStorage.set d key JVal.null ttl = d ∧
    MemoryStorage.get (MemoryStorage.set d key JVal.null ttl) key default =
      MemoryStorage.get d key default ∧
    RedisStorage.set redis prefixStr key JVal.null ttl = redis ∧
    RedisStorage.get (RedisStorage.set redis prefixStr key JVal.null ttl) prefixStr key default =
      RedisStorage.get redis prefixStr key default :=
  ⟨rfl, rfl, rfl, rfl⟩

/-- C10: the mapping-style subscript read `store[key]` (inherited
`SessionStorage.__getitem__`) returns `None` even when a value is stored
under the key, while the named `get` method returns the stored value. -/
theorem getitem_returns_none (d redis : Dict) (prefixStr key : String) (v : JVal)
    (h : dictGet? d key = some v) :
    MemoryStorage.getitem d key = JVal.null ∧
    MemoryStorage.get d key JVal.null = v ∧
    RedisStorage.getitem redis prefixStr key = JVal.null := by
  refine ⟨rfl, ?_, rfl⟩
  simp [MemoryStorage.get, dictGetD, h]

/-- Witness for `getitem_returns_none` at a store holding `1` under `"k"`. -/
theorem getitem_returns_none_witness :
    MemoryStorage.getitem [("k", JVal.int 1)] "k" = JVal.null ∧
    MemoryStorage.get [("k", JVal.int 1)] "k" JVal.null = JVal.int 1 ∧
    RedisStorage.getitem [] "jdy_session" "k" = JVal.null :=
  getitem_returns_none [("k", JVal.int 1)] [] "jdy_session" "k" (JVal.int 1) rfl

/-- C7 counterexample: two distinct `(client_id, username)` pairs whose
derived token keys coincide, because the underscore-joined key format
allows re-bracketing when a `client_id` itself contains an underscore. -/
theorem access_token_key_collision :
    access_token_key ⟨"a_b", "sec", "c", "pw", "A", "B", true⟩ =
      access_token_key ⟨"a", "sec", "b_c", "pw", "A", "B", true⟩ ∧
    (("a_b" : String), ("c" : String)) ≠ (("a" : String), ("b_c" : String)) := by
  exact ⟨rfl, by decide⟩

/-- C7 (amended): the Credential Store key is derived deterministically
from the pair `(client_id, username)` (equal pairs give equal keys), and
it is collision-free provided the `client_id`s contain no underscore:
distinct such pairs give distinct keys. -/
theorem access_token_key_scoped (cfg1 cfg2 : JDYCfg)
    (h1 : '_' ∉ cfg1.client_id.data) (h2 : '_' ∉ cfg2.client_id.data) :
    (cfg1.client_id = cfg2.client_id → cfg1.username = cfg2.username →
      access_token_key cfg1 = access_token_key cfg2) ∧
    (access_token_key cfg1 = access_token_key cfg2 →
      cfg1.client_id = cfg2.client_id ∧ cfg1.username = cfg2.username) := by
  constructor
  · intro hc hu
    unfold access_token_key
    rw [hc, hu]
  · intro heq
    have hd := congrArg String.data heq
    rw [access_token_key_data, access_token_key_data] at hd
    obtain ⟨hcid, hrest⟩ := no_underscore_split h1 h2 hd
    exact ⟨String.ext hcid, String.ext (List.append_cancel_right hrest)⟩

/-- Witness for `access_token_key_scoped` at underscore-free client ids. -/
theorem access_token_key_scoped_witness :
    ((("cid" : String) = "cid" → (("user" : String) = "user") →
      access_token_key ⟨"cid", "sec", "user", "pw", "A", "B", true⟩ =
        access_token_key ⟨"cid", "s2", "user", "p2", "A2", "B2", false⟩) ∧
    (access_token_key ⟨"cid", "sec", "user", "pw", "A", "B", true⟩ =
        access_token_key ⟨"cid", "s2", "user", "p2", "A2", "B2", false⟩ →
      (("cid" : String) = "cid") ∧ (("user" : String) = "user"))) :=
  access_token_key_scoped ⟨"cid", "sec", "user", "pw", "A", "B", true⟩
    ⟨"cid", "s2", "user", "p2", "A2", "B2", false⟩ (by decide) (by decide)

/-- C2: on a non-zero resource code with the retry branch inapplicable,
the source builds `JDYClientException(errcode, errmsg, ...)` but its
`request=res.request` argument is an attribute access on the parsed JSON
dict, so `AttributeError` is raised instead of the uniform client error.
Evaluated here at two failing inputs: a plain non-4010 error response
with retry enabled, and a second consecutive 4010 (retry exhausted). -/
theorem apiError_branch_raises_attributeError :
    (_request cfgEx 1000 "get" ACCOUNTS [("access_token", JVal.str "T1")] none none false
      { emptyWorld with
          ress := [.ok [("code", JVal.int 100), ("msg", JVal.str "boom")]] }).2 =
      .error (.attrError "request") ∧
    (_request cfgEx 1000 "get" ACCOUNTS [("access_token", JVal.str "T1")] none none true
      { emptyWorld with
          auths := [authOkEx],
          ress := [.ok [("code", JVal.int 4010)], .ok [("code", JVal.int 4010)]] }).2 =
      .error (.attrError "request") :=
  ⟨rfl, rfl⟩

/-- C4 counterexample: a success response whose `code` field arrives as
the JSON string `"0"` is not returned unchanged — the
code-coercion step (`int(...)` applied to the code entry) replaces it by the integer
`0` before the payload is returned. -/
theorem handle_result_mutates_string_code :
    (_handle_result cfgEx 0 [("code", JVal.str "0"), ("x", JVal.int 5)] "get"
        "https://api.kingdee.com/jdyaccouting/account" none true [] none emptyWorld).2 =
      .ok (JVal.obj [("code", JVal.int 0), ("x", JVal.int 5)]) ∧
    JVal.obj [("code", JVal.int 0), ("x", JVal.int 5)] ≠
      JVal.obj [("code", JVal.str "0"), ("x", JVal.int 5)] := by
  refine ⟨rfl, ?_⟩
  simp

/-- C4 (amended): a resource response whose coerced code equals `0` is
returned with its `code` field coerced to the integer `0` and otherwise
unchanged (exactly unchanged when the code already is the integer `0`),
and with a post-processing transform supplied the call returns exactly
exactly the output of the transform on that payload; the world is untouched. -/
theorem handle_result_code_zero_returns (cfg : JDYCfg) (now : Int) (res : Dict)
    (method url : String) (auto_retry : Bool) (params : Dict) (body : Option JVal)
    (w : World) (v : JVal)
    (hv : dictGet? res "code" = some v) (h0 : pyInt v = .ok 0) :
    (_handle_result cfg now res method url none auto_retry params body w =
      (w, .ok (JVal.obj (dictSet res "code" (JVal.int 0))))) ∧
    (∀ f : Dict → JVal,
      _handle_result cfg now res method url (some f) auto_retry params body w =
        (w, .ok (f (dictSet res "code" (JVal.int 0))))) ∧
    (v = JVal.int 0 → dictSet res "code" (JVal.int 0) = res) := by
  refine ⟨?_, fun f => ?_, fun hvz => dictSet_eq_of_get res "code" (JVal.int 0) (hvz ▸ hv)⟩
  · simp [_handle_result, _handle_resultFuel, hv, h0, applyProcessor]
  · simp [_handle_result, _handle_resultFuel, hv, h0, applyProcessor]

/-- Witness for `handle_result_code_zero_returns` at an integer-code
success response. -/
theorem handle_result_code_zero_returns_witness :
    (_handle_result cfgEx 0 [("code", JVal.int 0)] "get" "u" none true [] none emptyWorld =
      (emptyWorld, .ok (JVal.obj (dictSet [("code", JVal.int 0)] "code" (JVal.int 0))))) ∧
    (∀ f : Dict → JVal,
      _handle_result cfgEx 0 [("code", JVal.int 0)] "get" "u" (some f) true [] none emptyWorld =
        (emptyWorld, .ok (f (dictSet [("code", JVal.int 0)] "code" (JVal.int 0))))) ∧
    (JVal.int 0 = JVal.int 0 → dictSet [("code", JVal.int 0)] "code" (JVal.int 0) =
      [("code", JVal.int 0)]) :=
  handle_result_code_zero_returns cfgEx 0 [("code", JVal.int 0)] "get" "u" true [] none
    emptyWorld (JVal.int 0) rfl rfl

/-- C8: a client constructed with a truthy pre-seeded access token, whose
in-memory `expires_at` was never set, gets that token back from the
access-token getter at any time with the world — fetch count included —
left completely unchanged, so every invocation behaves identically and no
network fetch ever happens. -/
theorem preseeded_token_returned_without_fetch (cfg : JDYCfg) (session : Dict)
    (tok : JVal) (auths ress : List HttpResult) (fetches : Nat)
    (calls : List ReqCall) (setCalls : List (String × JVal × JVal))
    (htruthy : pyTruthy tok = true) :
    ∀ now : Int,
      access_token cfg now
        { st := jdyInit cfg session tok, auths := auths, ress := ress,
          fetches := fetches, calls := calls, setCalls := setCalls } =
        ({ st := jdyInit cfg session tok, auths := auths, ress := ress,
           fetches := fetches, calls := calls, setCalls := setCalls }, .ok tok) := by
  intro now
  have hget : MemoryStorage.get (jdyInit cfg session tok).session
      (access_token_key cfg) JVal.null = tok := by
    simp only [jdyInit, htruthy, if_pos]
    exact MemoryStorage.get_set_self _ _ _ _ _ (pyTruthy_ne_null htruthy)
  have hexp : (jdyInit cfg session tok).expires_at = none := rfl
  simp [access_token, hget, htruthy, hexp]

/-- Witness for `preseeded_token_returned_without_fetch` with token
`"T1"`. -/
theorem preseeded_token_returned_without_fetch_witness :
    access_token cfgEx 1000
        { st := jdyInit cfgEx [] (JVal.str "T1"), auths := [], ress := [],
          fetches := 0, calls := [], setCalls := [] } =
      ({ st := jdyInit cfgEx [] (JVal.str "T1"), auths := [], ress := [],
         fetches := 0, calls := [], setCalls := [] }, .ok (JVal.str "T1")) :=
  preseeded_token_returned_without_fetch cfgEx [] (JVal.str "T1") [] [] 0 [] [] rfl 1000

/-- C9: a credential-exchange response with a non-zero `errcode` makes
`_fetch_access_token` raise the uniform client error carrying that
errcode and the description of the response, with the session store,
`expires_at` and the set-call log all untouched and exactly one exchange
consumed (no retry, no recursive re-fetch). -/
theorem fetch_errcode_raises (cfg : JDYCfg) (now : Int) (w : World) (a : Dict)
    (arest : List HttpResult) (v dsc : JVal)
    (hAuths : w.auths = .ok a :: arest)
    (hErr : dictGet? a "errcode" = some v)
    (hNe : pyNe0 v = true)
    (hDesc : dictGet? a "description" = some dsc) :
    _fetch_access_token cfg now w =
      ({ w with auths := arest, fetches := w.fetches + 1 },
       .error (.jdyExc (some v) (some dsc))) := by
  unfold _fetch_access_token
  rw [hAuths]
  simp [hErr, hNe, hDesc]

/-- Witness for `fetch_errcode_raises` at errcode 42. -/
theorem fetch_errcode_raises_witness :
    _fetch_access_token cfgEx 1000
        { emptyWorld with
            auths := [.ok [("errcode", JVal.int 42), ("description", JVal.str "bad")]] } =
      ({ { emptyWorld with
            auths := [.ok [("errcode", JVal.int 42), ("description", JVal.str "bad")]] } with
          auths := [], fetches := emptyWorld.fetches + 1 },
       .error (.jdyExc (some (JVal.int 42)) (some (JVal.str "bad")))) :=
  fetch_errcode_raises cfgEx 1000
    { emptyWorld with
        auths := [.ok [("errcode", JVal.int 42), ("description", JVal.str "bad")]] }
    [("errcode", JVal.int 42), ("description", JVal.str "bad")] [] (JVal.int 42)
    (JVal.str "bad") rfl rfl rfl rfl

/-- C5: a successful credential exchange (no bad errcode) extracts
`data.access_token` and `data.expires_in` — the latter defaulting to
7200 when absent — calls `session.set` with the token under the client
token key and exactly that TTL (recorded in the set-call log), and sets
the in-memory `expires_at` to `now + expires_in`. -/
theorem fetch_success_caches (cfg : JDYCfg) (now : Int) (w : World) (a : Dict)
    (arest : List HttpResult) (d : Dict) (tokS : String)
    (hAuths : w.auths = .ok a :: arest)
    (hNoErr : dictGet? a "errcode" = none ∨ dictGet? a "errcode" = some (JVal.int 0))
    (hData : dictGet? a "data" = some (JVal.obj d))
    (hTokD : dictGet? d "access_token" = some (JVal.str tokS)) :
    (∀ ei : Int, dictGet? d "expires_in" = some (JVal.int ei) →
      _fetch_access_token cfg now w =
        ({ w with
            st := { session := dictSet w.st.session (access_token_key cfg) (JVal.str tokS),
                    expires_at := some (now + ei) }
            auths := arest
            fetches := w.fetches + 1
            setCalls := w.setCalls ++ [(access_token_key cfg, JVal.str tokS, JVal.int ei)] },
          .ok a)) ∧
    (dictGet? d "expires_in" = none →
      _fetch_access_token cfg now w =
        ({ w with
            st := { session := dictSet w.st.session (access_token_key cfg) (JVal.str tokS),
                    expires_at := some (now + 7200) }
            auths := arest
            fetches := w.fetches + 1
            setCalls := w.setCalls ++ [(access_token_key cfg, JVal.str tokS, JVal.int 7200)] },
          .ok a)) := by
  have hne : (match dictGet? a "errcode" with | some v => pyNe0 v | none => false) = false := by
    rcases hNoErr with h | h <;> rw [h] <;> simp [pyNe0]
  constructor
  · intro ei hEi
    exact fetch_ok cfg now w a arest d tokS (JVal.int ei) (now + ei) hAuths hne hData hTokD
      (by rw [hEi]) rfl
  · intro hEi
    exact fetch_ok cfg now w a arest d tokS (JVal.int 7200) (now + 7200) hAuths hne hData hTokD
      (by rw [hEi]) rfl

/-- Witness for `fetch_success_caches` at the concrete exchange issuing
token `T2` with `expires_in` 7200. -/
theorem fetch_success_caches_witness :
    ((∀ ei : Int,
      dictGet? [("access_token", JVal.str "T2"), ("expires_in", JVal.int 7200)] "expires_in" =
        some (JVal.int ei) →
      _fetch_access_token cfgEx 1000 { emptyWorld with auths := [authOkEx] } =
        ({ { emptyWorld with auths := [authOkEx] } with
            st := { session := dictSet emptyWorld.st.session (access_token_key cfgEx) (JVal.str "T2"),
                    expires_at := some (1000 + ei) }
            auths := []
            fetches := emptyWorld.fetches + 1
            setCalls := emptyWorld.setCalls ++
              [(access_token_key cfgEx, JVal.str "T2", JVal.int ei)] },
          .ok [("errcode", JVal.int 0),
               ("data", JVal.obj [("access_token", JVal.str "T2"), ("expires_in", JVal.int 7200)])])) ∧
    (dictGet? [("access_token", JVal.str "T2"), ("expires_in", JVal.int 7200)] "expires_in" = none →
      _fetch_access_token cfgEx 1000 { emptyWorld with auths := [authOkEx] } =
        ({ { emptyWorld with auths := [authOkEx] } with
            st := { session := dictSet emptyWorld.st.session (access_token_key cfgEx) (JVal.str "T2"),
                    expires_at := some (1000 + 7200) }
            auths := []
            fetches := emptyWorld.fetches + 1
            setCalls := emptyWorld.setCalls ++
              [(access_token_key cfgEx, JVal.str "T2", JVal.int 7200)] },
          .ok [("errcode", JVal.int 0),
               ("data", JVal.obj [("access_token", JVal.str "T2"), ("expires_in", JVal.int 7200)])]))) :=
  fetch_success_caches cfgEx 1000 { emptyWorld with auths := [authOkEx] }
    [("errcode", JVal.int 0),
     ("data", JVal.obj [("access_token", JVal.str "T2"), ("expires_in", JVal.int 7200)])]
    [] [("access_token", JVal.str "T2"), ("expires_in", JVal.int 7200)] "T2"
    rfl (Or.inr rfl) rfl rfl

/-- C3 counterexample: at `expires_at = 0` with a truthy cached token
and 60 seconds or less of remaining lifetime, the getter does not fetch:
the truthiness guard treats the zero timestamp like an unset one, so the
stale cached token `T1` comes back with the world — pending credential
exchange and fetch count included — completely unchanged, refuting
"performs exactly one fetch-and-cache and returns the freshly cached
token". -/
theorem access_token_zero_expiry_no_fetch :
    access_token cfgEx 1000
        { st := { session := [("cid_user_access_token", JVal.str "T1")],
                  expires_at := some 0 },
          auths := [authOkEx], ress := [], fetches := 0, calls := [], setCalls := [] } =
      ({ st := { session := [("cid_user_access_token", JVal.str "T1")],
                 expires_at := some 0 },
         auths := [authOkEx], ress := [], fetches := 0, calls := [], setCalls := [] },
       .ok (JVal.str "T1")) ∧
    ((0 : Int) - 1000 ≤ 60) :=
  ⟨rfl, by decide⟩

/-- C3 (amended): with a truthy cached token and a set nonzero
`expires_at`, the access-token getter returns the cached token with the
world untouched (no network fetch) whenever more than 60 seconds of
lifetime remain, and performs exactly one fetch-and-cache — consuming
one credential exchange and bumping the fetch count by one — before
returning the freshly cached token whenever 60 seconds or less remain
(including already past).  The nonzero proviso is forced by the
truthiness guard `if not self.expires_at:` in the source: at
`expires_at = 0` the cached token is returned without any fetch. -/
theorem access_token_expiry_check (cfg : JDYCfg) (now e : Int) (w : World)
    (tok : JVal) (a : Dict) (arest : List HttpResult) (d : Dict) (tokS : String) (ei : Int)
    (hTok : MemoryStorage.get w.st.session (access_token_key cfg) JVal.null = tok)
    (hTruthy : pyTruthy tok = true)
    (hExp : w.st.expires_at = some e)
    (hE0 : e ≠ 0)
    (hAuths : w.auths = .ok a :: arest)
    (hNoErr : dictGet? a "errcode" = none ∨ dictGet? a "errcode" = some (JVal.int 0))
    (hData : dictGet? a "data" = some (JVal.obj d))
    (hTokD : dictGet? d "access_token" = some (JVal.str tokS))
    (hEi : dictGet? d "expires_in" = some (JVal.int ei)) :
    (60 < e - now → access_token cfg now w = (w, .ok tok)) ∧
    (e - now ≤ 60 →
      access_token cfg now w =
        ({ w with
            st := { session := dictSet w.st.session (access_token_key cfg) (JVal.str tokS),
                    expires_at := some (now + ei) }
            auths := arest
            fetches := w.fetches + 1
            setCalls := w.setCalls ++ [(access_token_key cfg, JVal.str tokS, JVal.int ei)] },
          .ok (JVal.str tokS))) := by
  have hne : (match dictGet? a "errcode" with | some v => pyNe0 v | none => false) = false := by
    rcases hNoErr with h | h
    · rw [h]
    · rw [h]
      simp [pyNe0]
  have hfetch := fetch_ok cfg now w a arest d tokS (JVal.int ei) (now + ei) hAuths
    hne hData hTokD (by rw [hEi]) rfl
  constructor
  · intro hgt
    simp [access_token, hTok, hTruthy, hExp, hE0, hgt]
  · intro hle
    have hnot : ¬ (60 < e - now) := not_lt.mpr hle
    simp [access_token, hTok, hTruthy, hExp, hE0, hnot, fetch_access_token, hfetch,
      MemoryStorage.get, dictGetD, dictGet?_dictSet_self]

/-- Witness for `access_token_expiry_check`: a token expiring in 50
seconds is refreshed, one expiring in 1000 seconds would be returned. -/
theorem access_token_expiry_check_witness :
    ((60 < (1050 : Int) - 1000 →
      access_token cfgEx 1000
        { emptyWorld with
            st := { session := [("cid_user_access_token", JVal.str "T1")],
                    expires_at := some 1050 },
            auths := [authOkEx] } =
      ({ emptyWorld with
            st := { session := [("cid_user_access_token", JVal.str "T1")],
                    expires_at := some 1050 },
            auths := [authOkEx] }, .ok (JVal.str "T1"))) ∧
    ((1050 : Int) - 1000 ≤ 60 →
      access_token cfgEx 1000
        { emptyWorld with
            st := { session := [("cid_user_access_token", JVal.str "T1")],
                    expires_at := some 1050 },
            auths := [authOkEx] } =
        ({ { emptyWorld with
              st := { session := [("cid_user_access_token", JVal.str "T1")],
                      expires_at := some 1050 },
              auths := [authOkEx] } with
            st := { session := dictSet [("cid_user_access_token", JVal.str "T1")]
                      (access_token_key cfgEx) (JVal.str "T2"),
                    expires_at := some (1000 + 7200) }
            auths := []
            fetches := 0 + 1
            setCalls := [] ++ [(access_token_key cfgEx, JVal.str "T2", JVal.int 7200)] },
          .ok (JVal.str "T2")))) := by
  have h := access_token_expiry_check cfgEx 1000 1050
    { emptyWorld with
        st := { session := [("cid_user_access_token", JVal.str "T1")],
                expires_at := some 1050 },
        auths := [authOkEx] }
    (JVal.str "T1")
    [("errcode", JVal.int 0),
     ("data", JVal.obj [("access_token", JVal.str "T2"), ("expires_in", JVal.int 7200)])]
    [] [("access_token", JVal.str "T2"), ("expires_in", JVal.int 7200)] "T2" 7200
    rfl rfl rfl (by decide) rfl (Or.inr rfl) rfl rfl rfl
  exact h

theorem requestStep_ok_head (cfg : JDYCfg) (now : Int) (method u : String)
    (params : Dict) (body : Option JVal) (w : World) (t0 : JVal) (res : Dict)
    (rrest : List HttpResult)
    (hp : dictGet? params "access_token" = some t0)
    (hress : w.ress = .ok res :: rrest) :
    requestStep cfg now method u params body w =
      ({ w with calls := w.calls ++ [⟨method, resolveUrl u, params, body⟩],
                ress := rrest },
       if dictHasKey res "code" then .ok (resolveUrl u, params, res)
       else .error (.jdyExc none (some (JVal.str (jvalStr (JVal.obj res)))))) := by
  unfold requestStep
  rw [hp]
  by_cases hc : dictHasKey res "code" = true
  · simp [hress, hc]
  · simp [hress, hc]

/-- C1: a resource request whose first response carries the sentinel code
4010, with the auto-retry flag of the client and the retry flag of the call both
true and the query parameters already carrying a token, performs exactly
one forced token fetch (one credential exchange consumed, fetch count up
by exactly one), substitutes the freshly cached token into the query
parameters, and re-issues the HTTP request exactly once: the call log
grows by exactly the original call and one retry carrying the new token,
and exactly two resource responses are consumed — no matter what the
second response contains, including another 4010, no further retry or
fetch happens. -/
theorem retry_on_4010_exactly_once (cfg : JDYCfg) (now : Int) (method u : String)
    (params : Dict) (body : Option JVal) (rp : Option (Dict → JVal)) (w : World)
    (t0 v1 : JVal) (r1 r2 : Dict) (ressRest : List HttpResult)
    (a : Dict) (arest : List HttpResult) (d : Dict) (tokS : String) (ei : Int)
    (hAuto : cfg.auto_retry = true)
    (hParams : dictGet? params "access_token" = some t0)
    (hRess : w.ress = .ok r1 :: .ok r2 :: ressRest)
    (hCode1 : dictGet? r1 "code" = some v1)
    (hV1 : pyInt v1 = .ok 4010)
    (hAuths : w.auths = .ok a :: arest)
    (hNoErr : dictGet? a "errcode" = none ∨ dictGet? a "errcode" = some (JVal.int 0))
    (hData : dictGet? a "data" = some (JVal.obj d))
    (hTokD : dictGet? d "access_token" = some (JVal.str tokS))
    (hEi : dictGet? d "expires_in" = some (JVal.int ei)) :
    (_request cfg now method u params body rp true w).1.fetches = w.fetches + 1 ∧
    (_request cfg now method u params body rp true w).1.auths = arest ∧
    (_request cfg now method u params body rp true w).1.ress = ressRest ∧
    (_request cfg now method u params body rp true w).1.calls =
      w.calls ++
        [⟨method, resolveUrl u, params, body⟩,
         ⟨method, resolveUrl u, dictSet params "access_token" (JVal.str tokS), body⟩] := by
  have hkey1 : dictHasKey r1 "code" = true := by simp [dictHasKey, hCode1]
  have hne : (match dictGet? a "errcode" with | some v => pyNe0 v | none => false) = false := by
    rcases hNoErr with h | h
    · rw [h]
    · rw [h]
      simp [pyNe0]
  have hstep1 := requestStep_ok cfg now method u params body w t0 r1 (.ok r2 :: ressRest)
    hParams hRess hkey1
  have hp2 : dictGet? (dictSet params "access_token" (JVal.str tokS)) "access_token" =
      some (JVal.str tokS) := dictGet?_dictSet_self params "access_token" (JVal.str tokS)
  have hfetch1 : _fetch_access_token cfg now
      { w with calls := w.calls ++ [⟨method, resolveUrl u, params, body⟩],
               ress := .ok r2 :: ressRest } =
      ({ st := { session := dictSet w.st.session (access_token_key cfg) (JVal.str tokS),
                 expires_at := some (now + ei) },
         auths := arest,
         ress := HttpResult.ok r2 :: ressRest,
         fetches := w.fetches + 1,
         calls := w.calls ++ [⟨method, resolveUrl u, params, body⟩],
         setCalls := w.setCalls ++ [(access_token_key cfg, JVal.str tokS, JVal.int ei)] },
       .ok a) :=
    fetch_ok cfg now
      { w with calls := w.calls ++ [⟨method, resolveUrl u, params, body⟩],
               ress := .ok r2 :: ressRest }
      a arest d tokS (JVal.int ei) (now + ei) hAuths hne hData hTokD (by rw [hEi]) rfl
  have hstep2 := requestStep_ok_head cfg now method (resolveUrl u)
    (dictSet params "access_token" (JVal.str tokS)) body
    { st := { session := dictSet w.st.session (access_token_key cfg) (JVal.str tokS),
              expires_at := some (now + ei) },
      auths := arest,
      ress := HttpResult.ok r2 :: ressRest,
      fetches := w.fetches + 1,
      calls := w.calls ++ [⟨method, resolveUrl u, params, body⟩],
      setCalls := w.setCalls ++ [(access_token_key cfg, JVal.str tokS, JVal.int ei)] }
    (JVal.str tokS) r2 ressRest hp2 rfl
  have hW : (_request cfg now method u params body rp true w).1 =
      { st := { session := dictSet w.st.session (access_token_key cfg) (JVal.str tokS),
                expires_at := some (now + ei) },
        auths := arest,
        ress := ressRest,
        fetches := w.fetches + 1,
        calls := (w.calls ++ [⟨method, resolveUrl u, params, body⟩]) ++
          [⟨method, resolveUrl u, dictSet params "access_token" (JVal.str tokS), body⟩],
        setCalls := w.setCalls ++ [(access_token_key cfg, JVal.str tokS, JVal.int ei)] } := by
    unfold _request
    rw [hstep1]
    show (_handle_resultFuel 1 cfg now r1 method (resolveUrl u) rp true params body
      { w with calls := w.calls ++ [⟨method, resolveUrl u, params, body⟩],
               ress := .ok r2 :: ressRest }).1 = _
    unfold _handle_resultFuel
    rw [hCode1]
    simp only [hV1]
    rw [hAuto]
    rw [if_neg (by decide : ¬ (4010 : Int) = 0)]
    rw [if_pos (by decide : (true && true && decide ((4010 : Int) = INVALID_CREDENTIAL)) = true)]
    simp only [fetch_access_token]
    rw [hfetch1]
    simp only [MemoryStorage.get, dictGetD, dictGet?_dictSet_self, Option.getD_some]
    rw [hstep2]
    by_cases hc2 : dictHasKey r2 "code" = true
    · simp only [hc2, if_true]
      rw [handle_noretry_frame]
      simp [resolveUrl_idem]
    · simp only [hc2, if_false]
      simp [resolveUrl_idem]
  refine ⟨?_, ?_, ?_, ?_⟩
  · rw [hW]
  · rw [hW]
  · rw [hW]
  · rw [hW]
    simp

/-- Witness for `retry_on_4010_exactly_once`: a 4010 response followed by
a success, with a fresh token `T2` issued in between. -/
theorem retry_on_4010_exactly_once_witness :
    (_request cfgEx 1000 "get" ACCOUNTS [("access_token", JVal.str "T1")] none none true
      { emptyWorld with
          auths := [authOkEx],
          ress := [.ok [("code", JVal.int 4010)], .ok [("code", JVal.int 0)]] }).1.fetches =
      ({ emptyWorld with
          auths := [authOkEx],
          ress := [.ok [("code", JVal.int 4010)], .ok [("code", JVal.int 0)]] } : World).fetches + 1 ∧
    (_request cfgEx 1000 "get" ACCOUNTS [("access_token", JVal.str "T1")] none none true
      { emptyWorld with
          auths := [authOkEx],
          ress := [.ok [("code", JVal.int 4010)], .ok [("code", JVal.int 0)]] }).1.auths = [] ∧
    (_request cfgEx 1000 "get" ACCOUNTS [("access_token", JVal.str "T1")] none none true
      { emptyWorld with
          auths := [authOkEx],
          ress := [.ok [("code", JVal.int 4010)], .ok [("code", JVal.int 0)]] }).1.ress = [] ∧
    (_request cfgEx 1000 "get" ACCOUNTS [("access_token", JVal.str "T1")] none none true
      { emptyWorld with
          auths := [authOkEx],
          ress := [.ok [("code", JVal.int 4010)], .ok [("code", JVal.int 0)]] }).1.calls =
      ({ emptyWorld with
          auths := [authOkEx],
          ress := [.ok [("code", JVal.int 4010)], .ok [("code", JVal.int 0)]] } : World).calls ++
        [⟨"get", resolveUrl ACCOUNTS, [("access_token", JVal.str "T1")], none⟩,
         ⟨"get", resolveUrl ACCOUNTS,
          dictSet [("access_token", JVal.str "T1")] "access_token" (JVal.str "T2"), none⟩] :=
  retry_on_4010_exactly_once cfgEx 1000 "get" ACCOUNTS [("access_token", JVal.str "T1")] none none
    { emptyWorld with
        auths := [authOkEx],
        ress := [.ok [("code", JVal.int 4010)], .ok [("code", JVal.int 0)]] }
    (JVal.str "T1") (JVal.int 4010) [("code", JVal.int 4010)] [("code", JVal.int 0)] []
    [("errcode", JVal.int 0),
     ("data", JVal.obj [("access_token", JVal.str "T2"), ("expires_in", JVal.int 7200)])]
    [] [("access_token", JVal.str "T2"), ("expires_in", JVal.int 7200)] "T2" 7200
    rfl rfl rfl rfl rfl rfl (Or.inr rfl) rfl rfl rfl
